import Mathlib

/-!
Shallow embedding of the core of the ad_optimizer repository:

* the creative-fatigue detector
  (`src/components/optimizer/fatigue_detector.py`), and
* the A/B test manager
  (`src/components/ab_testing/ab_test_manager.py`).

Modelling choices:

* Numeric DataFrame columns are embedded as exact rationals (`ℚ`).
* A pandas float division followed by `.replace([inf, -inf], 0.0).fillna(0.0)`
  is embedded as a guarded rational division (`pdDiv`): for a zero denominator
  pandas produces `±inf` (or `NaN` for `0/0`), which the replace/fillna pair
  maps to `0.0`; for a nonzero denominator it is plain division.
* Dates are embedded as integer day numbers; `pd.to_datetime(col).dt.date`
  normalises to calendar days, and `timedelta(days = k)` is subtraction of `k`.
* A DataFrame is a list of typed rows.  The `sort_values` / `groupby` pair of
  the source only affects row order; the per-group computations are modelled
  with groups listed in first-occurrence order (pandas lists them in sorted
  key order), and group rows sorted stably by date where the source relies on
  it (`groupby(...).first()` for `campaign_name`).  Every property proved
  below is insensitive to row order.
* `round(x, n)` / `Series.round(n)` (round half to even) is `pyRound`;
  `astype(int)` / `int(...)` (truncation towards zero) is `truncToInt`.
-/

namespace AdOptimizer

/-- One input performance record: a row of the performance DataFrame handed to
the core (creative_id, date, impressions, clicks, conversions, spend, revenue,
optional campaign name).  A table whose `campaign_name` column is absent is
modelled as all rows carrying `none`. -/
structure PerfRow where
  creative_id : String
  dt : Int
  impressions : ℚ
  clicks : ℚ
  conversions : ℚ
  spend : ℚ
  revenue : ℚ
  campaign_name : Option String := none
  deriving DecidableEq

/-! ### Module constants of `fatigue_detector.py` -/

def RECENT_WINDOW_DAYS : Int := 7

def BASELINE_WINDOW_DAYS : Int := 30

def MIN_RECENT_IMPRESSIONS : ℚ := 500

def FATIGUE_THRESHOLD : ℚ := 1/2

def RISK_THRESHOLD : ℚ := 3/10

/-- `_relative_drop(recent, baseline)` of the source. -/
def relative_drop (recent baseline : ℚ) : ℚ :=
  if baseline ≤ 0 then 0 else max ((baseline - recent) / baseline) 0

/-- `_relative_increase(recent, baseline)` of the source. -/
def relative_increase (recent baseline : ℚ) : ℚ :=
  if baseline ≤ 0 then 0 else max ((recent - baseline) / baseline) 0

/-- pandas column division followed by `.replace([np.inf, -np.inf], 0.0).fillna(0.0)`:
division by zero (which floats turn into `±inf` or `NaN`) collapses to `0.0`. -/
def pdDiv (a b : ℚ) : ℚ := if b = 0 then 0 else a / b

/-- Python `round(x, ndigits)` and pandas `Series.round(ndigits)`: round half
to even at the last kept digit. -/
def roundHalfEven (x : ℚ) : Int :=
  let n : Int := Int.floor x
  let frac : ℚ := x - n
  if frac < 1/2 then n
  else if 1/2 < frac then n + 1
  else if n % 2 = 0 then n else n + 1

def pyRound (x : ℚ) (ndigits : Nat) : ℚ :=
  let p : ℚ := (10 : ℚ) ^ ndigits
  (roundHalfEven (x * p) : ℚ) / p

/-- numpy `astype(int)` / Python `int(...)` on a float: truncation towards 0. -/
def truncToInt (x : ℚ) : Int := if 0 ≤ x then Int.floor x else Int.ceil x

/-! ### `_aggregate_metrics` -/

/-- One row of the aggregate produced by `_aggregate_metrics`: summed base
columns plus the five derived ratios. -/
structure AggMetrics where
  impressions : ℚ
  clicks : ℚ
  conversions : ℚ
  spend : ℚ
  revenue : ℚ
  ctr : ℚ
  cvr : ℚ
  roas : ℚ
  cpa : ℚ
  cpc : ℚ
  deriving DecidableEq

def zeroAgg : AggMetrics :=
  { impressions := 0, clicks := 0, conversions := 0, spend := 0, revenue := 0,
    ctr := 0, cvr := 0, roas := 0, cpa := 0, cpc := 0 }

def rowsFor (rows : List PerfRow) (cid : String) : List PerfRow :=
  rows.filter (fun r => r.creative_id == cid)

def sumBy (rows : List PerfRow) (f : PerfRow → ℚ) : ℚ := (rows.map f).sum

/-- The aggregate row of `_aggregate_metrics` for one `creative_id` group:
sums of the base columns and the guarded derived ratios. -/
def aggFor (rows : List PerfRow) (cid : String) : AggMetrics :=
  let g := rowsFor rows cid
  let impressions := sumBy g (fun r => r.impressions)
  let clicks := sumBy g (fun r => r.clicks)
  let conversions := sumBy g (fun r => r.conversions)
  let spend := sumBy g (fun r => r.spend)
  let revenue := sumBy g (fun r => r.revenue)
  { impressions, clicks, conversions, spend, revenue,
    ctr := pdDiv clicks impressions,
    cvr := pdDiv conversions clicks,
    roas := pdDiv revenue spend,
    cpa := pdDiv spend conversions,
    cpc := pdDiv spend clicks }

/-- The distinct `creative_id` keys of a table (the index of the groupby). -/
def distinctIds (rows : List PerfRow) : List String :=
  (rows.map (fun r => r.creative_id)).dedup

/-- `_aggregate_metrics(df)`: a table keyed by the distinct creative ids, one
aggregate row each (empty table in, empty table out). -/
def aggregate_metrics (rows : List PerfRow) : List (String × AggMetrics) :=
  (distinctIds rows).map (fun cid => (cid, aggFor rows cid))

/-- Keyed lookup realising the `join(..., how="left")` followed by
`fillna(0.0)`: a key missing from the joined table contributes all-zero
columns. -/
def lookupAgg (tbl : List (String × AggMetrics)) (cid : String) : AggMetrics :=
  match tbl.lookup cid with
  | some m => m
  | none => zeroAgg

/-! ### Per-creative fatigue computation -/

/-- Weighted composite fatigue score (lines 120-126 of the source). -/
def fatigueScore (ctr_d cvr_d roas_d cpa_inc cpc_inc : ℚ) : ℚ :=
  35/100 * ctr_d + 25/100 * cvr_d + 25/100 * roas_d +
    10/100 * cpa_inc + 5/100 * cpc_inc

/-- Score-threshold classification (the branch taken once the volume floor is
met). -/
def scoreStatus (score : ℚ) : String :=
  if score ≥ FATIGUE_THRESHOLD then "fatigued"
  else if score ≥ RISK_THRESHOLD then "fatigue-risk"
  else "fresh"

/-- Full status rule: volume floor first, then the score thresholds. -/
def statusFor (recent_impr score : ℚ) : String :=
  if recent_impr < MIN_RECENT_IMPRESSIONS then "fresh" else scoreStatus score

/-- `_compose_notes` of the source. -/
def compose_notes (ctr_drop cvr_drop roas_drop cpa_increase cpc_increase : ℚ) : String :=
  let drivers : List String :=
    (if ctr_drop ≥ 25/100 then ["CTR down"] else []) ++
    (if cvr_drop ≥ 20/100 then ["CVR down"] else []) ++
    (if roas_drop ≥ 20/100 then ["ROAS down"] else []) ++
    (if cpa_increase ≥ 20/100 then ["CPA up"] else []) ++
    (if cpc_increase ≥ 20/100 then ["CPC up"] else [])
  if drivers.isEmpty then "Performance stable" else String.intercalate ", " drivers

/-- The intermediate per-creative quantities of the loop body of
`detect_fatigue` (lines 107-148): joined aggregates, the five unrounded
drop/increase components, the unrounded score and the recent impressions. -/
structure CreativeCalc where
  tot : AggMetrics
  rec7 : AggMetrics
  base30 : AggMetrics
  ctr_d : ℚ
  cvr_d : ℚ
  roas_d : ℚ
  cpa_inc : ℚ
  cpc_inc : ℚ
  score : ℚ
  recent_impr : ℚ
  deriving DecidableEq

def creativeCalc (df rdf bdf : List PerfRow) (cid : String) : CreativeCalc :=
  let tot := aggFor df cid
  let rec7 := lookupAgg (aggregate_metrics rdf) cid
  let base30 := lookupAgg (aggregate_metrics bdf) cid
  let ctr_d := relative_drop rec7.ctr base30.ctr
  let cvr_d := relative_drop rec7.cvr base30.cvr
  let roas_d := relative_drop rec7.roas base30.roas
  let cpa_inc := relative_increase rec7.cpa base30.cpa
  let cpc_inc := relative_increase rec7.cpc base30.cpc
  { tot, rec7, base30, ctr_d, cvr_d, roas_d, cpa_inc, cpc_inc,
    score := fatigueScore ctr_d cvr_d roas_d cpa_inc cpc_inc,
    recent_impr := rec7.impressions }

/-- Stable insertion by date, used to model the `sort_values(["creative_id",
"dt"])` order within one creative's group. -/
def insertByDt (r : PerfRow) : List PerfRow → List PerfRow
  | [] => [r]
  | x :: xs => if r.dt < x.dt then r :: x :: xs else x :: insertByDt r xs

def sortByDt (l : List PerfRow) : List PerfRow :=
  l.foldl (fun acc r => insertByDt r acc) []

/-- `df.groupby("creative_id")["campaign_name"].first()` over the date-sorted
table: the first non-null campaign name of the creative's rows. -/
def firstCampaign (df : List PerfRow) (cid : String) : Option String :=
  ((sortByDt (rowsFor df cid)).filterMap (fun r => r.campaign_name)).head?

/-- One output row of `detect_fatigue` (the 27 selected columns, lines
178-208 of the source). -/
structure FatigueRow where
  creative_id : String
  status : String
  fatigue_score : ℚ
  impressions : Int
  clicks : Int
  ctr : ℚ
  conversions : ℚ
  spend : ℚ
  revenue : ℚ
  ctr_drop : ℚ
  cvr_drop : ℚ
  roas_drop : ℚ
  cpa_increase : ℚ
  cpc_increase : ℚ
  notes : String
  impressions_7d : ℚ
  ctr_7d : ℚ
  ctr_30d : ℚ
  roas_7d : ℚ
  roas_30d : ℚ
  cvr_7d : ℚ
  cvr_30d : ℚ
  cpa_7d : ℚ
  cpa_30d : ℚ
  cpc_7d : ℚ
  cpc_30d : ℚ
  campaign_name : Option String
  deriving DecidableEq

def fatigueRowFor (df rdf bdf : List PerfRow) (cid : String) : FatigueRow :=
  let c := creativeCalc df rdf bdf cid
  { creative_id := cid
    status := statusFor c.recent_impr c.score
    fatigue_score := pyRound c.score 3
    impressions := truncToInt c.tot.impressions
    clicks := truncToInt c.tot.clicks
    ctr := pyRound (c.tot.ctr * 100) 2
    conversions := c.tot.conversions
    spend := c.tot.spend
    revenue := c.tot.revenue
    ctr_drop := pyRound c.ctr_d 3
    cvr_drop := pyRound c.cvr_d 3
    roas_drop := pyRound c.roas_d 3
    cpa_increase := pyRound c.cpa_inc 3
    cpc_increase := pyRound c.cpc_inc 3
    notes :=
      if c.recent_impr < MIN_RECENT_IMPRESSIONS then
        "Insufficient recent volume (<500 impressions)"
      else
        compose_notes c.ctr_d c.cvr_d c.roas_d c.cpa_inc c.cpc_inc
    impressions_7d := c.rec7.impressions
    ctr_7d := pyRound (c.rec7.ctr * 100) 2
    ctr_30d := pyRound (c.base30.ctr * 100) 2
    roas_7d := c.rec7.roas
    roas_30d := c.base30.roas
    cvr_7d := pyRound (c.rec7.cvr * 100) 2
    cvr_30d := pyRound (c.base30.cvr * 100) 2
    cpa_7d := c.rec7.cpa
    cpa_30d := c.base30.cpa
    cpc_7d := c.rec7.cpc
    cpc_30d := c.base30.cpc
    campaign_name := firstCampaign df cid }

/-! ### `detect_fatigue` -/

/-- Column list of the early-return for an empty input (lines 68-72). -/
def fatigueEmptyCols : List String :=
  ["creative_id", "status", "fatigue_score", "ctr_drop", "cvr_drop",
   "roas_drop", "cpa_increase", "cpc_increase", "notes"]

/-- Column list of the non-empty output (the selection of lines 178-208). -/
def fatigueFullCols : List String :=
  ["creative_id", "status", "fatigue_score", "impressions", "clicks", "ctr",
   "conversions", "spend", "revenue", "ctr_drop", "cvr_drop", "roas_drop",
   "cpa_increase", "cpc_increase", "notes", "impressions_7d", "ctr_7d",
   "ctr_30d", "roas_7d", "roas_30d", "cvr_7d", "cvr_30d", "cpa_7d",
   "cpa_30d", "cpc_7d", "cpc_30d", "campaign_name"]

/-- A returned DataFrame: its column list together with its typed rows. -/
structure FatigueFrame where
  cols : List String
  rows : List FatigueRow
  deriving DecidableEq

/-- `df["dt"].max()` (only consulted on non-empty tables; `0` is a dead
default for the empty case). -/
def maxDate (rows : List PerfRow) : Int :=
  ((rows.map (fun r => r.dt)).maximum).unbot' 0

/-- `df[df["dt"] >= recent_cutoff]` with `recent_cutoff = max_date -
(RECENT_WINDOW_DAYS - 1)`. -/
def recentFilter (df : List PerfRow) : List PerfRow :=
  df.filter (fun r => decide (maxDate df - (RECENT_WINDOW_DAYS - 1) ≤ r.dt))

/-- `df[df["dt"] >= baseline_cutoff]` with `baseline_cutoff = max_date -
(BASELINE_WINDOW_DAYS - 1)`. -/
def baselineFilter (df : List PerfRow) : List PerfRow :=
  df.filter (fun r => decide (maxDate df - (BASELINE_WINDOW_DAYS - 1) ≤ r.dt))

/-- Lines 83-85: the baseline window, falling back to the whole table when
the filter selects nothing. -/
def baselineOrAll (df : List PerfRow) : List PerfRow :=
  if (baselineFilter df).isEmpty then df else baselineFilter df

/-- `detect_fatigue(perf)`. -/
def detect_fatigue (perf : List PerfRow) : FatigueFrame :=
  if perf.isEmpty then
    { cols := fatigueEmptyCols, rows := [] }
  else
    { cols := fatigueFullCols,
      rows := (distinctIds perf).map
        (fatigueRowFor perf (recentFilter perf) (baselineOrAll perf)) }

/-- `detect_fatigue` with the empty-baseline fallback branch (lines 84-85)
removed: the baseline is always the 30-day filter. -/
def detect_fatigue_noFallback (perf : List PerfRow) : FatigueFrame :=
  if perf.isEmpty then
    { cols := fatigueEmptyCols, rows := [] }
  else
    { cols := fatigueFullCols,
      rows := (distinctIds perf).map
        (fatigueRowFor perf (recentFilter perf) (baselineFilter perf)) }

/-! ### A/B test manager (`ab_test_manager.py`) -/

/-- External numeric primitives used by `analyze_test`: `np.sqrt` and
`scipy.stats.norm.cdf`.  Both live outside this repository, so the embedding
is parameterised by them; theorems assume only the mathematical facts about
them that they actually need (e.g. `normCdf 0 = 1/2`). -/
structure StatPrims where
  sqrt : ℚ → ℚ
  normCdf : ℚ → ℚ

/-- Per-variant entry of the `results` dict built by `analyze_test`
(lines 150-200).  The five total columns are only present in the non-empty
branch, hence optional. -/
structure VariantResult where
  creative_id : String
  metric_value : ℚ
  sample_size : ℚ
  std_error : ℚ
  impressions : Option Int := none
  clicks : Option Int := none
  conversions : Option Int := none
  spend : Option ℚ := none
  revenue : Option ℚ := none
  deriving DecidableEq

/-- The full `results` dict: slots a and b always exist, c and d only when
the test has those variants. -/
structure VariantResults where
  a : VariantResult
  b : VariantResult
  c : Option VariantResult := none
  d : Option VariantResult := none
  deriving DecidableEq

/-- The `ABTest` dataclass of `src/components/models.py` (fields the manager
touches; timestamps are integers supplied by the caller in place of
`datetime.now()`). -/
structure ABTest where
  test_id : String
  client_id : String
  platform : String
  test_name : String
  test_type : String
  status : String
  variant_a_id : String
  variant_b_id : String
  variant_c_id : Option String := none
  variant_d_id : Option String := none
  traffic_split : List (String × ℚ) := [("a", 1/2), ("b", 1/2)]
  start_date : Option Int := none
  end_date : Option Int := none
  winner : Option String := none
  confidence_level : Option ℚ := none
  metrics : Option VariantResults := none
  created_at : Option Int := none
  updated_at : Option Int := none
  deriving DecidableEq

/-- The manager's in-memory registry `self._cache : Dict[str, ABTest]`. -/
abbrev Cache := List (String × ABTest)

/-- Re-binding a key of the registry (in Python the cached object is mutated
in place, observationally a key replacement). -/
def updateCache (cache : Cache) (tid : String) (t : ABTest) : Cache :=
  cache.map (fun p => if p.1 == tid then (tid, t) else p)

/-- Lines 41-48: even 1/N default split over the supplied variant slots. -/
def defaultTrafficSplit (vc vd : Option String) : List (String × ℚ) :=
  let num_variants : ℚ := 2 + (if vc.isSome then 1 else 0) + (if vd.isSome then 1 else 0)
  let split_pct := 1 / num_variants
  [("a", split_pct), ("b", split_pct)] ++
    (if vc.isSome then [("c", split_pct)] else []) ++
    (if vd.isSome then [("d", split_pct)] else [])

/-- `create_test`: the fresh `str(uuid.uuid4())` is modelled as a
caller-supplied `test_id`; `datetime.now()` as the `now` argument.  A falsy
`traffic_split` (None or empty) gets the default split. -/
def create_test (cache : Cache)
    (test_id client_id platform test_name test_type variant_a_id variant_b_id : String)
    (variant_c_id variant_d_id : Option String)
    (traffic_split : Option (List (String × ℚ))) (now : Int) : ABTest × Cache :=
  let split :=
    match traffic_split with
    | none => defaultTrafficSplit variant_c_id variant_d_id
    | some s => if s.isEmpty then defaultTrafficSplit variant_c_id variant_d_id else s
  let test : ABTest :=
    { test_id, client_id, platform, test_name, test_type, status := "draft",
      variant_a_id, variant_b_id, variant_c_id, variant_d_id,
      traffic_split := split, created_at := some now, updated_at := some now }
  (test, (test_id, test) :: cache)

/-- `start_test`: unconditionally sets status `"running"` on any registered
test; `False` and no state change for an unknown id. -/
def start_test (cache : Cache) (test_id : String) (now : Int) : Bool × Cache :=
  match cache.lookup test_id with
  | none => (false, cache)
  | some t =>
    (true, updateCache cache test_id
      { t with status := "running", start_date := some now, updated_at := some now })

/-- `pause_test`: unconditionally sets status `"paused"` on any registered
test. -/
def pause_test (cache : Cache) (test_id : String) (now : Int) : Bool × Cache :=
  match cache.lookup test_id with
  | none => (false, cache)
  | some t =>
    (true, updateCache cache test_id
      { t with status := "paused", updated_at := some now })

/-- `complete_test`: unconditionally sets status `"completed"` on any
registered test. -/
def complete_test (cache : Cache) (test_id : String) (winner : Option String)
    (now : Int) : Bool × Cache :=
  match cache.lookup test_id with
  | none => (false, cache)
  | some t =>
    (true, updateCache cache test_id
      { t with status := "completed", end_date := some now, winner := winner,
               updated_at := some now })

/-- Lines 150-200 of `analyze_test`: per-variant metric computation.  All
divisions are guarded by positivity checks in the source. -/
def variantResult (prims : StatPrims) (performance_data : List PerfRow)
    (metric : String) (cid : String) : VariantResult :=
  let variant_data := performance_data.filter (fun r => r.creative_id == cid)
  if variant_data.isEmpty then
    { creative_id := cid, metric_value := 0, sample_size := 0, std_error := 0 }
  else
    let total_impressions := sumBy variant_data (fun r => r.impressions)
    let total_clicks := sumBy variant_data (fun r => r.clicks)
    let total_conversions := sumBy variant_data (fun r => r.conversions)
    let total_spend := sumBy variant_data (fun r => r.spend)
    let total_revenue := sumBy variant_data (fun r => r.revenue)
    let mv_n : ℚ × ℚ :=
      if metric == "ctr" then
        (if 0 < total_impressions then total_clicks / total_impressions else 0,
         total_impressions)
      else if metric == "cvr" then
        (if 0 < total_clicks then total_conversions / total_clicks else 0,
         total_clicks)
      else if metric == "cpa" then
        (if 0 < total_conversions then total_spend / total_conversions else 0,
         total_conversions)
      else if metric == "roas" then
        (if 0 < total_spend then total_revenue / total_spend else 0,
         (truncToInt total_spend : ℚ))
      else (0, 0)
    let metric_value := mv_n.1
    let sample_size := mv_n.2
    let std_error :=
      if (metric == "ctr" || metric == "cvr") && decide (0 < sample_size) then
        prims.sqrt (metric_value * (1 - metric_value) / sample_size)
      else 0
    { creative_id := cid, metric_value, sample_size, std_error,
      impressions := some (truncToInt total_impressions),
      clicks := some (truncToInt total_clicks),
      conversions := some (truncToInt total_conversions),
      spend := some total_spend,
      revenue := some total_revenue }

/-- `p_pool = (p1*n1 + p2*n2) / (n1 + n2)` (line 218). -/
def pooledProp (a_data b_data : VariantResult) : ℚ :=
  (a_data.metric_value * a_data.sample_size + b_data.metric_value * b_data.sample_size) /
    (a_data.sample_size + b_data.sample_size)

/-- `se_pool = sqrt(p_pool * (1 - p_pool) * (1/n1 + 1/n2))` (line 222). -/
def sePool (prims : StatPrims) (a_data b_data : VariantResult) : ℚ :=
  prims.sqrt (pooledProp a_data b_data * (1 - pooledProp a_data b_data) *
    (1 / a_data.sample_size + 1 / b_data.sample_size))

/-- `z_score = (p1 - p2) / se_pool` (line 224). -/
def zScore (prims : StatPrims) (a_data b_data : VariantResult) : ℚ :=
  (a_data.metric_value - b_data.metric_value) / sePool prims a_data b_data

/-- Two-tailed p-value `2 * (1 - norm.cdf(abs(z_score)))` (line 228). -/
def pValue (prims : StatPrims) (a_data b_data : VariantResult) : ℚ :=
  2 * (1 - prims.normCdf |zScore prims a_data b_data|)

/-- Lines 202-232: winner and p-value of the pooled two-proportion z-test
between slots a and b, including every degenerate guard of the source
(zero sample size, pooled proportion outside (0,1), zero pooled standard
error). -/
def zTestOutcome (prims : StatPrims) (a_data b_data : VariantResult)
    (confidence_level : ℚ) : Option String × ℚ :=
  if 0 < a_data.sample_size ∧ 0 < b_data.sample_size then
    if 0 < pooledProp a_data b_data ∧ pooledProp a_data b_data < 1 then
      if 0 < sePool prims a_data b_data then
        if pValue prims a_data b_data < 1 - confidence_level then
          (some (if b_data.metric_value < a_data.metric_value then "a" else "b"),
           pValue prims a_data b_data)
        else
          (none, pValue prims a_data b_data)
      else (none, 1)
    else (none, 1)
  else (none, 1)

/-- The analysis dict returned by `analyze_test` (lines 240-248). -/
structure Analysis where
  test_id : String
  metric : String
  var_a : VariantResult
  var_b : VariantResult
  var_c : Option VariantResult := none
  var_d : Option VariantResult := none
  winner : Option String
  p_value : ℚ
  confidence_level : ℚ
  is_significant : Bool
  deriving DecidableEq

/-- The analysis dict built for a registered test (lines 240-248);
`confidence_level` of the result is the clipped `1 - p_value` stored on the
test (line 236). -/
def analyzeResult (prims : StatPrims) (test : ABTest) (test_id : String)
    (performance_data : List PerfRow) (metric : String)
    (confidence_level : ℚ) : Analysis :=
  let a_data := variantResult prims performance_data metric test.variant_a_id
  let b_data := variantResult prims performance_data metric test.variant_b_id
  let outcome := zTestOutcome prims a_data b_data confidence_level
  { test_id, metric, var_a := a_data, var_b := b_data,
    var_c := test.variant_c_id.map (variantResult prims performance_data metric),
    var_d := test.variant_d_id.map (variantResult prims performance_data metric),
    winner := outcome.1, p_value := outcome.2,
    confidence_level := if outcome.2 < 1 then 1 - outcome.2 else 0,
    is_significant := decide (outcome.2 < 1 - confidence_level) }

/-- The mutation of the cached test performed by `analyze_test`
(lines 234-238). -/
def analyzeUpdated (prims : StatPrims) (test : ABTest)
    (performance_data : List PerfRow) (metric : String) (confidence_level : ℚ)
    (now : Int) : ABTest :=
  let a_data := variantResult prims performance_data metric test.variant_a_id
  let b_data := variantResult prims performance_data metric test.variant_b_id
  let outcome := zTestOutcome prims a_data b_data confidence_level
  { test with
      metrics := some
        { a := a_data, b := b_data,
          c := test.variant_c_id.map (variantResult prims performance_data metric),
          d := test.variant_d_id.map (variantResult prims performance_data metric) },
      confidence_level := some (if outcome.2 < 1 then 1 - outcome.2 else 0),
      winner := outcome.1, updated_at := some now }

/-- `analyze_test`: unknown id yields the empty result `{}` (modelled as
`none`) and leaves the registry untouched; otherwise the per-variant metrics
and the z-test outcome, persisted onto the cached test. -/
def analyze_test (prims : StatPrims) (cache : Cache) (test_id : String)
    (performance_data : List PerfRow) (metric : String) (confidence_level : ℚ)
    (now : Int) : Option Analysis × Cache :=
  match cache.lookup test_id with
  | none => (none, cache)
  | some test =>
    (some (analyzeResult prims test test_id performance_data metric confidence_level),
     updateCache cache test_id
       (analyzeUpdated prims test performance_data metric confidence_level now))

/-- The summary dict of `get_test_summary` (lines 279-289). -/
structure TestSummary where
  test_id : String
  test_name : String
  platform : String
  status : String
  winner : Option String
  confidence_level : Option ℚ
  metrics : Option VariantResults
  start_date : Option Int
  end_date : Option Int
  deriving DecidableEq

/-- `get_test_summary`: `{}` (modelled `none`) for an unknown id, otherwise a
read-only projection of the stored test. -/
def get_test_summary (cache : Cache) (test_id : String) : Option TestSummary :=
  match cache.lookup test_id with
  | none => none
  | some t =>
    some { test_id := t.test_id, test_name := t.test_name, platform := t.platform,
           status := t.status, winner := t.winner,
           confidence_level := t.confidence_level, metrics := t.metrics,
           start_date := t.start_date, end_date := t.end_date }

/-! ### Concrete fixtures used by the witness theorems -/

def wRow1 : PerfRow :=
  { creative_id := "C1", dt := 0, impressions := 1000, clicks := 50,
    conversions := 5, spend := 10, revenue := 30 }

def wRow2 : PerfRow :=
  { creative_id := "C2", dt := 0, impressions := 100, clicks := 1,
    conversions := 0, spend := 2, revenue := 0 }

def wPerf : List PerfRow := [wRow1, wRow2]

/-- Concrete instantiation of the external numeric primitives, satisfying the
facts the theorems assume (`normCdf 0 = 1/2`, positivity-preserving sqrt). -/
def wPrims : StatPrims := { sqrt := fun x => x, normCdf := fun _ => 1/2 }

def wTest : ABTest :=
  { test_id := "t1", client_id := "cl", platform := "meta", test_name := "n",
    test_type := "creative", status := "draft", variant_a_id := "A",
    variant_b_id := "B" }

def wCache : Cache := [("t1", wTest)]

/-- Identical performance data for the two variants of `wTest`. -/
def wPerfEq : List PerfRow :=
  [{ creative_id := "A", dt := 0, impressions := 1000, clicks := 100,
     conversions := 10, spend := 50, revenue := 100 },
   { creative_id := "B", dt := 0, impressions := 1000, clicks := 100,
     conversions := 10, spend := 50, revenue := 100 }]

/-- Registry after completing and then re-starting the test: the operation
sequence of the C9 counterexample. -/
def w9c1 : Cache := (complete_test wCache "t1" none 0).2

def w9c2 : Cache := (start_test w9c1 "t1" 1).2

/-! ### Helper lemmas -/

theorem fatigueRowFor_creative_id (df rdf bdf : List PerfRow) (cid : String) :
    (fatigueRowFor df rdf bdf cid).creative_id = cid := rfl

theorem fatigueRowFor_status (df rdf bdf : List PerfRow) (cid : String) :
    (fatigueRowFor df rdf bdf cid).status =
      statusFor (creativeCalc df rdf bdf cid).recent_impr
        (creativeCalc df rdf bdf cid).score := rfl

theorem fatigueRowFor_impressions_7d (df rdf bdf : List PerfRow) (cid : String) :
    (fatigueRowFor df rdf bdf cid).impressions_7d =
      (creativeCalc df rdf bdf cid).rec7.impressions := rfl

theorem fatigueRowFor_fatigue_score (df rdf bdf : List PerfRow) (cid : String) :
    (fatigueRowFor df rdf bdf cid).fatigue_score =
      pyRound (creativeCalc df rdf bdf cid).score 3 := rfl

theorem creativeCalc_recent_impr (df rdf bdf : List PerfRow) (cid : String) :
    (creativeCalc df rdf bdf cid).recent_impr =
      (creativeCalc df rdf bdf cid).rec7.impressions := rfl

theorem detect_fatigue_rows_creative_ids (perf : List PerfRow) (h : perf ≠ []) :
    (detect_fatigue perf).rows.map (fun r => r.creative_id) = distinctIds perf := by
  have he : perf.isEmpty = false := by simp [List.isEmpty_iff, h]
  simp [detect_fatigue, he, List.map_map, Function.comp_def, fatigueRowFor_creative_id]

theorem exists_maxDate_row (rows : List PerfRow) (h : rows ≠ []) :
    ∃ r ∈ rows, r.dt = maxDate rows := by
  have hmap : rows.map (fun r => r.dt) ≠ [] := by
    simpa using h
  have hb := List.maximum_ne_bot_of_ne_nil hmap
  obtain ⟨m, hm⟩ := WithBot.ne_bot_iff_exists.mp hb
  have hmem : m ∈ rows.map (fun r => r.dt) := List.maximum_mem hm.symm
  obtain ⟨r, hr, hrd⟩ := List.mem_map.mp hmem
  refine ⟨r, hr, ?_⟩
  rw [maxDate, ← hm, WithBot.unbot'_coe, hrd]

theorem baselineFilter_ne_nil (perf : List PerfRow) (h : perf ≠ []) :
    baselineFilter perf ≠ [] := by
  obtain ⟨r, hr, hrd⟩ := exists_maxDate_row perf h
  have hmem : r ∈ baselineFilter perf := by
    refine List.mem_filter.mpr ⟨hr, ?_⟩
    simp only [decide_eq_true_eq, hrd, BASELINE_WINDOW_DAYS]
    omega
  exact List.ne_nil_of_mem hmem

theorem lookup_updateCache (cache : Cache) (tid : String) (t : ABTest)
    (h : ∃ t₀, cache.lookup tid = some t₀) :
    (updateCache cache tid t).lookup tid = some t := by
  obtain ⟨t₀, h⟩ := h
  induction cache with
  | nil => simp [List.lookup] at h
  | cons p rest ih =>
    rcases p with ⟨k, v⟩
    by_cases hp : k = tid
    · subst hp
      simp [updateCache, List.lookup_cons]
    · have hne : (tid == k) = false := beq_eq_false_iff_ne.mpr (Ne.symm hp)
      have hne2 : ((k, v).1 == tid) = false := beq_eq_false_iff_ne.mpr hp
      have h2 : rest.lookup tid = some t₀ := by
        simpa only [List.lookup_cons, hne] using h
      show List.lookup tid
        ((if ((k, v).1 == tid) = true then (tid, t) else (k, v)) :: updateCache rest tid t) =
          some t
      rw [hne2]
      simp only [Bool.false_eq_true, if_false, List.lookup_cons, hne]
      exact ih h2

/-! ### Claim theorems -/

/-- Claim C1: for every non-empty performance table, `detect_fatigue` returns
exactly one output row per distinct creative_id present in the input (the
output ids are the distinct input ids, without duplicates), and no rows for
creative_ids not present in the input. -/
theorem detect_fatigue_one_row_per_creative (perf : List PerfRow) (h : perf ≠ []) :
    ((detect_fatigue perf).rows.map (fun r => r.creative_id)).Nodup ∧
    ∀ cid : String,
      cid ∈ (detect_fatigue perf).rows.map (fun r => r.creative_id) ↔
        cid ∈ perf.map (fun r => r.creative_id) := by
  rw [detect_fatigue_rows_creative_ids perf h]
  exact ⟨List.nodup_dedup _, fun cid => List.mem_dedup⟩

theorem detect_fatigue_one_row_per_creative_witness :
    wPerf ≠ [] ∧
    (((detect_fatigue wPerf).rows.map (fun r => r.creative_id)).Nodup ∧
     ∀ cid : String,
       cid ∈ (detect_fatigue wPerf).rows.map (fun r => r.creative_id) ↔
         cid ∈ wPerf.map (fun r => r.creative_id)) :=
  ⟨by decide, detect_fatigue_one_row_per_creative wPerf (by decide)⟩

/-- Claim C2: every output row of `detect_fatigue` whose 7-day impression sum
is below 500 has status `"fresh"` regardless of the computed fatigue score;
when the 7-day impressions reach 500 the status is exactly the score-threshold
classification (`"fatigued"` at score ≥ 0.5, `"fatigue-risk"` at ≥ 0.3) of the
same unrounded score whose rounding the row reports as `fatigue_score`. -/
theorem detect_fatigue_volume_floor (perf : List PerfRow) (r : FatigueRow)
    (hr : r ∈ (detect_fatigue perf).rows) :
    (r.impressions_7d < 500 → r.status = "fresh") ∧
    ((500 : ℚ) ≤ r.impressions_7d →
      r.status = scoreStatus
        (creativeCalc perf (recentFilter perf) (baselineOrAll perf) r.creative_id).score) ∧
    r.fatigue_score =
      pyRound (creativeCalc perf (recentFilter perf) (baselineOrAll perf) r.creative_id).score 3 := by
  cases hb : perf.isEmpty with
  | true => simp [detect_fatigue, hb] at hr
  | false =>
    simp only [detect_fatigue, hb, Bool.false_eq_true, if_false, List.mem_map] at hr
    obtain ⟨cid, hcid, rfl⟩ := hr
    rw [fatigueRowFor_creative_id]
    refine ⟨fun hlt => ?_, fun hge => ?_, fatigueRowFor_fatigue_score _ _ _ _⟩
    · rw [fatigueRowFor_status, statusFor, creativeCalc_recent_impr]
      rw [fatigueRowFor_impressions_7d] at hlt
      rw [if_pos]
      exact hlt
    · rw [fatigueRowFor_status, statusFor, creativeCalc_recent_impr]
      rw [fatigueRowFor_impressions_7d] at hge
      rw [if_neg]
      exact not_lt.mpr hge

theorem detect_fatigue_volume_floor_witness :
    (fatigueRowFor wPerf (recentFilter wPerf) (baselineOrAll wPerf) "C2") ∈
      (detect_fatigue wPerf).rows ∧
    (((fatigueRowFor wPerf (recentFilter wPerf) (baselineOrAll wPerf) "C2").impressions_7d < 500 →
      (fatigueRowFor wPerf (recentFilter wPerf) (baselineOrAll wPerf) "C2").status = "fresh") ∧
     ((500 : ℚ) ≤ (fatigueRowFor wPerf (recentFilter wPerf) (baselineOrAll wPerf) "C2").impressions_7d →
      (fatigueRowFor wPerf (recentFilter wPerf) (baselineOrAll wPerf) "C2").status = scoreStatus
        (creativeCalc wPerf (recentFilter wPerf) (baselineOrAll wPerf)
          (fatigueRowFor wPerf (recentFilter wPerf) (baselineOrAll wPerf) "C2").creative_id).score) ∧
     (fatigueRowFor wPerf (recentFilter wPerf) (baselineOrAll wPerf) "C2").fatigue_score =
       pyRound (creativeCalc wPerf (recentFilter wPerf) (baselineOrAll wPerf)
         (fatigueRowFor wPerf (recentFilter wPerf) (baselineOrAll wPerf) "C2").creative_id).score 3) := by
  have hmem : (fatigueRowFor wPerf (recentFilter wPerf) (baselineOrAll wPerf) "C2") ∈
      (detect_fatigue wPerf).rows := by
    have hrows : (detect_fatigue wPerf).rows =
        (distinctIds wPerf).map
          (fatigueRowFor wPerf (recentFilter wPerf) (baselineOrAll wPerf)) := by
      have he : wPerf.isEmpty = false := rfl
      simp [detect_fatigue, he]
    rw [hrows]
    exact List.mem_map_of_mem _ (by decide)
  exact ⟨hmem, detect_fatigue_volume_floor wPerf _ hmem⟩

/-- Claim C3: the fatigue score is the fixed weighted sum
`0.35*ctr_drop + 0.25*cvr_drop + 0.25*roas_drop + 0.10*cpa_increase +
0.05*cpc_increase`, it is the score computed per creative by the detector, and
it is monotonically non-decreasing in each of the five components (stated
jointly: non-decreasing componentwise, which specialises to each single
component with the other four held fixed). -/
theorem fatigueScore_weighted_sum_monotone (a a' b b' c c' d d' e e' : ℚ)
    (ha : a ≤ a') (hb : b ≤ b') (hc : c ≤ c') (hd : d ≤ d') (he : e ≤ e') :
    fatigueScore a b c d e =
      35/100 * a + 25/100 * b + 25/100 * c + 10/100 * d + 5/100 * e ∧
    fatigueScore a b c d e ≤ fatigueScore a' b' c' d' e' ∧
    ∀ (df rdf bdf : List PerfRow) (cid : String),
      (creativeCalc df rdf bdf cid).score =
        fatigueScore (creativeCalc df rdf bdf cid).ctr_d
          (creativeCalc df rdf bdf cid).cvr_d
          (creativeCalc df rdf bdf cid).roas_d
          (creativeCalc df rdf bdf cid).cpa_inc
          (creativeCalc df rdf bdf cid).cpc_inc := by
  refine ⟨rfl, ?_, fun df rdf bdf cid => rfl⟩
  unfold fatigueScore
  linarith

theorem fatigueScore_weighted_sum_monotone_witness :
    ((0 : ℚ) ≤ 1 ∧ (0 : ℚ) ≤ 0 ∧ (1 : ℚ) ≤ 2 ∧ (0 : ℚ) ≤ 0 ∧ (0 : ℚ) ≤ 1) ∧
    (fatigueScore 0 0 1 0 0 =
      35/100 * 0 + 25/100 * 0 + 25/100 * 1 + 10/100 * 0 + 5/100 * 0 ∧
    fatigueScore 0 0 1 0 0 ≤ fatigueScore 1 0 2 0 1 ∧
    ∀ (df rdf bdf : List PerfRow) (cid : String),
      (creativeCalc df rdf bdf cid).score =
        fatigueScore (creativeCalc df rdf bdf cid).ctr_d
          (creativeCalc df rdf bdf cid).cvr_d
          (creativeCalc df rdf bdf cid).roas_d
          (creativeCalc df rdf bdf cid).cpa_inc
          (creativeCalc df rdf bdf cid).cpc_inc) :=
  ⟨by norm_num,
   fatigueScore_weighted_sum_monotone 0 1 0 0 1 2 0 0 0 1
     (by norm_num) (by norm_num) (by norm_num) (by norm_num) (by norm_num)⟩

/-- Claim C8, counterexample: on the empty table `detect_fatigue` returns
zero rows, but with the 9-column early-return set, not the full 27-column set
of the non-empty output (e.g. the aggregate total `impressions` column is
missing), so the claimed column-set equality fails. -/
theorem detect_fatigue_empty_cols_counterexample :
    (detect_fatigue []).rows = [] ∧
    (detect_fatigue []).cols = fatigueEmptyCols ∧
    "impressions" ∈ fatigueFullCols ∧
    "impressions" ∉ (detect_fatigue []).cols ∧
    (detect_fatigue []).cols ≠ fatigueFullCols := by decide

/-- Claim C8, amended: `detect_fatigue` applied to an empty performance table
returns (without raising and not null) a typed result with zero rows whose
column set is the fixed 9-column early-return set (creative_id, status,
fatigue_score, the five drop/increase metrics, notes) — a subset of the
non-empty output's 27 columns, not the full set. -/
theorem detect_fatigue_empty_typed_output :
    detect_fatigue [] = { cols := fatigueEmptyCols, rows := [] } ∧
    fatigueEmptyCols ⊆ fatigueFullCols ∧
    fatigueEmptyCols ≠ fatigueFullCols := by
  refine ⟨rfl, ?_, by decide⟩
  intro c hc
  fin_cases hc <;> decide

/-- Claim C10: for every non-empty performance table the 30-day baseline
filter retains at least the rows dated `max_date`, hence is never empty, and
the fallback that substitutes the whole table as baseline is dead code:
`detect_fatigue` is extensionally equal to the variant with the fallback
branch removed. -/
theorem baseline_fallback_dead (perf : List PerfRow) :
    (perf ≠ [] → baselineFilter perf ≠ []) ∧
    detect_fatigue perf = detect_fatigue_noFallback perf := by
  refine ⟨baselineFilter_ne_nil perf, ?_⟩
  by_cases hb : perf.isEmpty = true
  · simp [detect_fatigue, detect_fatigue_noFallback, hb]
  · have h2 : perf ≠ [] := by
      simpa [List.isEmpty_iff] using hb
    have h3 : (baselineFilter perf).isEmpty = false := by
      simp [List.isEmpty_iff, baselineFilter_ne_nil perf h2]
    simp [detect_fatigue, detect_fatigue_noFallback, hb, baselineOrAll, h3]

theorem start_test_some (cache : Cache) (test_id : String) (now : Int) (t : ABTest)
    (h : cache.lookup test_id = some t) :
    start_test cache test_id now = (true, updateCache cache test_id
      { t with status := "running", start_date := some now, updated_at := some now }) := by
  unfold start_test
  rw [h]

theorem pause_test_some (cache : Cache) (test_id : String) (now : Int) (t : ABTest)
    (h : cache.lookup test_id = some t) :
    pause_test cache test_id now = (true, updateCache cache test_id
      { t with status := "paused", updated_at := some now }) := by
  unfold pause_test
  rw [h]

theorem complete_test_some (cache : Cache) (test_id : String) (w : Option String)
    (now : Int) (t : ABTest) (h : cache.lookup test_id = some t) :
    complete_test cache test_id w now = (true, updateCache cache test_id
      { t with status := "completed", end_date := some now, winner := w,
               updated_at := some now }) := by
  unfold complete_test
  rw [h]

theorem analyze_test_some (prims : StatPrims) (cache : Cache) (test_id : String)
    (t : ABTest) (perf : List PerfRow) (metric : String) (conf : ℚ) (now : Int)
    (h : cache.lookup test_id = some t) :
    analyze_test prims cache test_id perf metric conf now =
      (some (analyzeResult prims t test_id perf metric conf),
       updateCache cache test_id (analyzeUpdated prims t perf metric conf now)) := by
  unfold analyze_test
  rw [h]

theorem zTestOutcome_degenerate (prims : StatPrims) (ra rb : VariantResult) (conf : ℚ)
    (h : ra.sample_size = 0 ∨ rb.sample_size = 0 ∨
         pooledProp ra rb = 0 ∨ pooledProp ra rb = 1) :
    zTestOutcome prims ra rb conf = (none, 1) := by
  unfold zTestOutcome
  by_cases h1 : 0 < ra.sample_size ∧ 0 < rb.sample_size
  · rw [if_pos h1]
    have hpool : ¬(0 < pooledProp ra rb ∧ pooledProp ra rb < 1) := by
      rcases h with h | h | h | h
      · exact absurd h1.1 (by rw [h]; exact lt_irrefl 0)
      · exact absurd h1.2 (by rw [h]; exact lt_irrefl 0)
      · rintro ⟨hc, -⟩
        rw [h] at hc
        exact lt_irrefl 0 hc
      · rintro ⟨-, hc⟩
        rw [h] at hc
        exact lt_irrefl 1 hc
    rw [if_neg hpool]
  · rw [if_neg h1]

theorem zTestOutcome_equal_values (prims : StatPrims) (ra rb : VariantResult)
    (conf : ℚ) (hcdf : prims.normCdf 0 = 1/2) (hconf : 0 < conf)
    (heq : ra.metric_value = rb.metric_value) :
    zTestOutcome prims ra rb conf = (none, 1) := by
  have hz : zScore prims ra rb = 0 := by
    simp only [zScore, heq, sub_self, zero_div]
  have hp : pValue prims ra rb = 1 := by
    simp only [pValue, hz, abs_zero, hcdf]
    norm_num
  unfold zTestOutcome
  split_ifs with h1 h2 h3 h4 h5
  · exact absurd h4 (by rw [hp]; intro hcon; linarith)
  · exact absurd h4 (by rw [hp]; intro hcon; linarith)
  · rw [hp]
  · rfl
  · rfl
  · rfl

theorem baseline_fallback_dead_witness :
    wPerf ≠ [] ∧ baselineFilter wPerf ≠ [] ∧
    detect_fatigue wPerf = detect_fatigue_noFallback wPerf :=
  ⟨by decide, (baseline_fallback_dead wPerf).1 (by decide),
   (baseline_fallback_dead wPerf).2⟩

/-- Claim C4: on a registered two-variant test, whenever either variant's
sample size is zero or the pooled proportion is 0 or 1, `analyze_test`
performs no significance test: the returned p_value is 1.0, is_significant
is False and winner is None (stated for valid confidence levels in (0,1]). -/
theorem analyze_test_degenerate (prims : StatPrims) (cache : Cache)
    (test_id : String) (t : ABTest) (perf : List PerfRow) (metric : String)
    (conf : ℚ) (now : Int)
    (hreg : cache.lookup test_id = some t)
    (hconf : 0 < conf ∧ conf ≤ 1)
    (hdeg : (variantResult prims perf metric t.variant_a_id).sample_size = 0 ∨
            (variantResult prims perf metric t.variant_b_id).sample_size = 0 ∨
            pooledProp (variantResult prims perf metric t.variant_a_id)
              (variantResult prims perf metric t.variant_b_id) = 0 ∨
            pooledProp (variantResult prims perf metric t.variant_a_id)
              (variantResult prims perf metric t.variant_b_id) = 1) :
    ((analyze_test prims cache test_id perf metric conf now).1.map
      (fun a => (a.p_value, a.is_significant, a.winner))) = some (1, false, none) := by
  have hout := zTestOutcome_degenerate prims
    (variantResult prims perf metric t.variant_a_id)
    (variantResult prims perf metric t.variant_b_id) conf hdeg
  have hns : ¬((1 : ℚ) < 1 - conf) := by linarith [hconf.1]
  rw [analyze_test_some prims cache test_id t perf metric conf now hreg]
  simp only [analyzeResult, hout]
  simp [hns]

theorem analyze_test_degenerate_witness :
    wCache.lookup "t1" = some wTest ∧
    ((0 : ℚ) < 95/100 ∧ (95/100 : ℚ) ≤ 1) ∧
    (variantResult wPrims [] "ctr" wTest.variant_a_id).sample_size = 0 ∧
    ((analyze_test wPrims wCache "t1" [] "ctr" (95/100) 0).1.map
      (fun a => (a.p_value, a.is_significant, a.winner))) = some (1, false, none) :=
  ⟨rfl, by norm_num, rfl,
   analyze_test_degenerate wPrims wCache "t1" wTest [] "ctr" (95/100) 0 rfl
     (by norm_num) (Or.inl rfl)⟩

/-- Claim C5: on a registered two-variant test with identical per-variant
metric value and sample size (p1 = p2, n1 = n2) and any confidence level in
(0,1], `analyze_test` reports is_significant = False and winner = None
(assuming only that the external normal CDF satisfies `cdf 0 = 1/2`). -/
theorem analyze_test_identical_variants (prims : StatPrims) (cache : Cache)
    (test_id : String) (t : ABTest) (perf : List PerfRow) (metric : String)
    (conf : ℚ) (now : Int)
    (hreg : cache.lookup test_id = some t)
    (htwo : t.variant_c_id = none ∧ t.variant_d_id = none)
    (hconf : 0 < conf ∧ conf ≤ 1)
    (hcdf : prims.normCdf 0 = 1/2)
    (heq : (variantResult prims perf metric t.variant_a_id).metric_value =
             (variantResult prims perf metric t.variant_b_id).metric_value ∧
           (variantResult prims perf metric t.variant_a_id).sample_size =
             (variantResult prims perf metric t.variant_b_id).sample_size) :
    ((analyze_test prims cache test_id perf metric conf now).1.map
      (fun a => (a.is_significant, a.winner))) = some (false, none) := by
  have hout := zTestOutcome_equal_values prims
    (variantResult prims perf metric t.variant_a_id)
    (variantResult prims perf metric t.variant_b_id) conf hcdf hconf.1 heq.1
  have hns : ¬((1 : ℚ) < 1 - conf) := by linarith [hconf.1]
  rw [analyze_test_some prims cache test_id t perf metric conf now hreg]
  simp only [analyzeResult, hout]
  simp [hns]

theorem analyze_test_identical_variants_witness :
    wCache.lookup "t1" = some wTest ∧
    (wTest.variant_c_id = none ∧ wTest.variant_d_id = none) ∧
    ((0 : ℚ) < 95/100 ∧ (95/100 : ℚ) ≤ 1) ∧
    wPrims.normCdf 0 = 1/2 ∧
    ((variantResult wPrims wPerfEq "ctr" wTest.variant_a_id).metric_value =
       (variantResult wPrims wPerfEq "ctr" wTest.variant_b_id).metric_value ∧
     (variantResult wPrims wPerfEq "ctr" wTest.variant_a_id).sample_size =
       (variantResult wPrims wPerfEq "ctr" wTest.variant_b_id).sample_size) ∧
    ((analyze_test wPrims wCache "t1" wPerfEq "ctr" (95/100) 0).1.map
      (fun a => (a.is_significant, a.winner))) = some (false, none) :=
  ⟨rfl, ⟨rfl, rfl⟩, by norm_num, rfl, ⟨rfl, rfl⟩,
   analyze_test_identical_variants wPrims wCache "t1" wTest wPerfEq "ctr" (95/100) 0
     rfl ⟨rfl, rfl⟩ (by norm_num) rfl ⟨rfl, rfl⟩⟩

/-- Claim C6: for a test_id absent from the registry, start_test, pause_test
and complete_test return the failure indicator False, analyze_test and
get_test_summary return the empty result, and in every case the registry is
returned unchanged (no registered test is modified); in the embedding all
five operations are total functions, so none can raise. -/
theorem unknown_test_id_safe (prims : StatPrims) (cache : Cache) (test_id : String)
    (perf : List PerfRow) (metric : String) (conf : ℚ) (w : Option String)
    (n1 n2 n3 n4 : Int)
    (h : cache.lookup test_id = none) :
    start_test cache test_id n1 = (false, cache) ∧
    pause_test cache test_id n2 = (false, cache) ∧
    complete_test cache test_id w n3 = (false, cache) ∧
    analyze_test prims cache test_id perf metric conf n4 = (none, cache) ∧
    get_test_summary cache test_id = none := by
  refine ⟨?_, ?_, ?_, ?_, ?_⟩
  · unfold start_test
    rw [h]
  · unfold pause_test
    rw [h]
  · unfold complete_test
    rw [h]
  · unfold analyze_test
    rw [h]
  · unfold get_test_summary
    rw [h]

theorem unknown_test_id_safe_witness :
    wCache.lookup "missing" = none ∧
    start_test wCache "missing" 0 = (false, wCache) ∧
    pause_test wCache "missing" 0 = (false, wCache) ∧
    complete_test wCache "missing" none 0 = (false, wCache) ∧
    analyze_test wPrims wCache "missing" [] "ctr" (95/100) 0 = (none, wCache) ∧
    get_test_summary wCache "missing" = none := by
  have h : wCache.lookup "missing" = none := rfl
  obtain ⟨h1, h2, h3, h4, h5⟩ :=
    unknown_test_id_safe wPrims wCache "missing" [] "ctr" (95/100) none 0 0 0 0 h
  exact ⟨h, h1, h2, h3, h4, h5⟩

/-- Claim C7: every derived ratio of the core is total with zero denominators
yielding exactly 0.0: the five aggregate ratios of `_aggregate_metrics`
(ctr, cvr, roas, cpa, cpc) and the per-variant metric_value and std_error of
`analyze_test`.  In the embedding all these are total rational-valued
functions, so no input raises or produces NaN or an infinity. -/
theorem zero_denominator_ratios (rows perf : List PerfRow) (cid : String)
    (prims : StatPrims) :
    ((aggFor rows cid).impressions = 0 → (aggFor rows cid).ctr = 0) ∧
    ((aggFor rows cid).clicks = 0 →
      (aggFor rows cid).cvr = 0 ∧ (aggFor rows cid).cpc = 0) ∧
    ((aggFor rows cid).spend = 0 → (aggFor rows cid).roas = 0) ∧
    ((aggFor rows cid).conversions = 0 → (aggFor rows cid).cpa = 0) ∧
    (sumBy (perf.filter (fun r => r.creative_id == cid)) (fun r => r.impressions) = 0 →
      (variantResult prims perf "ctr" cid).metric_value = 0 ∧
      (variantResult prims perf "ctr" cid).std_error = 0) ∧
    (sumBy (perf.filter (fun r => r.creative_id == cid)) (fun r => r.clicks) = 0 →
      (variantResult prims perf "cvr" cid).metric_value = 0 ∧
      (variantResult prims perf "cvr" cid).std_error = 0) ∧
    (sumBy (perf.filter (fun r => r.creative_id == cid)) (fun r => r.conversions) = 0 →
      (variantResult prims perf "cpa" cid).metric_value = 0) ∧
    (sumBy (perf.filter (fun r => r.creative_id == cid)) (fun r => r.spend) = 0 →
      (variantResult prims perf "roas" cid).metric_value = 0) := by
  refine ⟨?_, ?_, ?_, ?_, ?_, ?_, ?_, ?_⟩
  · intro h
    simp only [aggFor] at h ⊢
    simp [pdDiv, h]
  · intro h
    simp only [aggFor] at h ⊢
    simp [pdDiv, h]
  · intro h
    simp only [aggFor] at h ⊢
    simp [pdDiv, h]
  · intro h
    simp only [aggFor] at h ⊢
    simp [pdDiv, h]
  · intro h
    unfold variantResult
    by_cases he : (perf.filter (fun r => r.creative_id == cid)).isEmpty
    · rw [if_pos he]
      exact ⟨rfl, rfl⟩
    · rw [if_neg he]
      simp [h]
  · intro h
    unfold variantResult
    by_cases he : (perf.filter (fun r => r.creative_id == cid)).isEmpty
    · rw [if_pos he]
      exact ⟨rfl, rfl⟩
    · rw [if_neg he]
      simp [h]
  · intro h
    unfold variantResult
    by_cases he : (perf.filter (fun r => r.creative_id == cid)).isEmpty
    · rw [if_pos he]
    · rw [if_neg he]
      simp [h]
  · intro h
    unfold variantResult
    by_cases he : (perf.filter (fun r => r.creative_id == cid)).isEmpty
    · rw [if_pos he]
    · rw [if_neg he]
      simp [h]

theorem zero_denominator_ratios_witness :
    ((aggFor [] "X").impressions = 0 ∧ (aggFor [] "X").ctr = 0) ∧
    (sumBy (([] : List PerfRow).filter (fun r => r.creative_id == "X"))
        (fun r => r.impressions) = 0 ∧
      (variantResult wPrims [] "ctr" "X").metric_value = 0 ∧
      (variantResult wPrims [] "ctr" "X").std_error = 0) :=
  ⟨⟨rfl, (zero_denominator_ratios [] [] "X" wPrims).1 rfl⟩,
   ⟨rfl, (zero_denominator_ratios [] [] "X" wPrims).2.2.2.2.1 rfl⟩⟩

/-- Claim C9, counterexample: the manager's operations set statuses
unconditionally, so the sequence create → complete → start moves a test that
is `"completed"` back to `"running"`, contradicting the claimed lifecycle in
which nothing leaves `"completed"`. -/
theorem ab_lifecycle_counterexample :
    ((w9c1.lookup "t1").map (fun t => t.status) = some "completed") ∧
    ((w9c2.lookup "t1").map (fun t => t.status) = some "running") :=
  ⟨rfl, rfl⟩

/-- Claim C9, amended: every test is created with status "draft", and on any
registered test start_test / pause_test / complete_test set the status
unconditionally to "running" / "paused" / "completed" respectively, with no
guard on the current status — so all transitions between those states are
reachable, not only the draft→running→(paused↔running)→completed lifecycle
(completed→running in particular, see the counterexample). -/
theorem ab_status_transitions (cache : Cache) (test_id : String) (t : ABTest)
    (client_id platform test_name test_type va vb : String) (vc vd : Option String)
    (ts : Option (List (String × ℚ))) (w : Option String) (now : Int)
    (h : cache.lookup test_id = some t) :
    (create_test cache test_id client_id platform test_name test_type
        va vb vc vd ts now).1.status = "draft" ∧
    (((create_test cache test_id client_id platform test_name test_type
        va vb vc vd ts now).2.lookup test_id).map (fun u => u.status)) = some "draft" ∧
    (((start_test cache test_id now).2.lookup test_id).map (fun u => u.status)) =
      some "running" ∧
    (((pause_test cache test_id now).2.lookup test_id).map (fun u => u.status)) =
      some "paused" ∧
    (((complete_test cache test_id w now).2.lookup test_id).map (fun u => u.status)) =
      some "completed" := by
  refine ⟨rfl, ?_, ?_, ?_, ?_⟩
  · simp [create_test, List.lookup_cons]
  · rw [start_test_some cache test_id now t h]
    show ((updateCache cache test_id
        { t with status := "running", start_date := some now,
                 updated_at := some now }).lookup test_id).map (fun u => u.status) =
      some "running"
    rw [lookup_updateCache cache test_id _ ⟨t, h⟩]
    rfl
  · rw [pause_test_some cache test_id now t h]
    show ((updateCache cache test_id
        { t with status := "paused", updated_at := some now }).lookup test_id).map
      (fun u => u.status) = some "paused"
    rw [lookup_updateCache cache test_id _ ⟨t, h⟩]
    rfl
  · rw [complete_test_some cache test_id w now t h]
    show ((updateCache cache test_id
        { t with status := "completed", end_date := some now, winner := w,
                 updated_at := some now }).lookup test_id).map (fun u => u.status) =
      some "completed"
    rw [lookup_updateCache cache test_id _ ⟨t, h⟩]
    rfl

theorem ab_status_transitions_witness :
    wCache.lookup "t1" = some wTest ∧
    ((create_test wCache "t1" "cl" "meta" "n" "creative" "A" "B"
        none none none 5).1.status = "draft" ∧
     (((create_test wCache "t1" "cl" "meta" "n" "creative" "A" "B"
        none none none 5).2.lookup "t1").map (fun u => u.status)) = some "draft" ∧
     (((start_test wCache "t1" 5).2.lookup "t1").map (fun u => u.status)) =
       some "running" ∧
     (((pause_test wCache "t1" 5).2.lookup "t1").map (fun u => u.status)) =
       some "paused" ∧
     (((complete_test wCache "t1" none 5).2.lookup "t1").map (fun u => u.status)) =
       some "completed") :=
  ⟨rfl, ab_status_transitions wCache "t1" wTest "cl" "meta" "n" "creative"
    "A" "B" none none none none 5 rfl⟩

end AdOptimizer
